import Mathlib

/-!
Verification of the Chat Relay Service (src/main.py) of the
ai-girl-chatbot repository, as a shallow embedding in Lean 4.

The service exposes three routes: a health check (`read_root`), a status
probe (`api_status`) and a chat-forward endpoint (`chat_with_ai`).  The
remote language-model client (`llm.invoke`) is the external collaborator:
it is modelled as a function from the prompt to either the generated text
or a raised failure carrying an exception kind and a human-readable
message.  Every handler is embedded as a total Lean function; the
catch-all exception handling of the Python code corresponds to the
functions being total on the failure type.
-/

namespace AIGirlBot

/-- The kinds of exceptions that the Python code distinguishes by type:
`google.api_core.exceptions.ResourceExhausted`, the built-in
`TimeoutError`, and every other exception class (caught only by the
generic `except Exception` clauses). -/
inductive ExcKind where
  | resourceExhausted
  | timeoutError
  | otherExc
deriving DecidableEq, Repr

/-- A raised Python exception: its class (as far as the code inspects it)
and its human-readable message (`str(e)`). -/
structure Exc where
  kind : ExcKind
  msg : String
deriving DecidableEq, Repr

/-- The outcome of a call to the remote model client: generated text or a
raised exception.  The relay classifies failures purely by inspecting
this value. -/
abbrev InvokeResult := Except Exc String

/-- The remote model client (`llm.invoke`): a map from prompt to outcome. -/
abbrev Invoke := String → InvokeResult

/-- Whether `needle` occurs as a contiguous sublist of `haystack`. -/
def listContains (needle : List Char) : List Char → Bool
  | [] => needle.isEmpty
  | c :: rest => needle.isPrefixOf (c :: rest) || listContains needle rest

/-- Python's `needle in haystack` on strings: substring containment. -/
def strContains (haystack needle : String) : Bool :=
  listContains needle.toList haystack.toList

/-- Python's `s.lower()` (the messages inspected are ASCII, where this
agrees with per-character lowering). -/
def pyLower (s : String) : String :=
  String.mk (s.data.map Char.toLower)

/-- Python truthiness of `os.environ.get(...)`: `None` and the empty
string are falsy. -/
def pyFalsy : Option String → Bool
  | none => true
  | some s => s == ""

/-- src/main.py lines 16-17: the startup check.  The process refuses to
start (raises `ValueError`) exactly when the key `GOOGLE_API_KEY` is not
a member of the environment; returns `true` when the server starts.
Membership is all that is tested: the value bound to the key is not
inspected. -/
def startup_check (env : String → Option String) : Bool :=
  (env "GOOGLE_API_KEY").isSome

/-- src/main.py lines 56-57: `class ChatRequest(BaseModel): message: str`. -/
structure ChatRequest where
  message : String
deriving DecidableEq, Repr

/-- src/main.py lines 59-60: `class ChatResponse(BaseModel): reply: str`. -/
structure ChatResponse where
  reply : String
deriving DecidableEq, Repr

/-- Pydantic validation of the request body for `ChatRequest`: the body
must carry a `message` field holding a string; any string value is
accepted (the model declares no constraint beyond the type `str`). -/
def parseChatRequest (message? : Option String) : Option ChatRequest :=
  message?.map ChatRequest.mk

/-- The body of the status probe's response (src/main.py lines 79-86 and
97-103); the fixed tier/quota strings are omitted as constants of no
interest, the fields the code branches on are kept. -/
structure StatusBody where
  status : String
  error : Option String
  model : String
deriving DecidableEq, Repr

/-- An HTTP response of the status probe: served status code and body. -/
structure StatusHttp where
  httpCode : Nat
  body : StatusBody
deriving DecidableEq, Repr

/-- src/main.py lines 70-103, `api_status`.  It invokes the model with
the fixed prompt "Hello"; on success it returns the operational report;
on any exception it classifies by substring.  The handler returns a plain
dict, which FastAPI serves with HTTP status 200 — the local variable
`status_code` computed on lines 89-93 is never used, so the served code
is 200 on every path. -/
def api_status (modelName : String) (invoke : Invoke) : StatusHttp :=
  match invoke "Hello" with
  | .ok _ =>
      { httpCode := 200
        body := { status := "operational", error := none, model := modelName } }
  | .error e =>
      let error_message := e.msg
      let status_message :=
        if strContains (pyLower error_message) "quota"
            || strContains (pyLower error_message) "rate" then
          "quota_exceeded"
        else
          "error"
      { httpCode := 200
        body := { status := status_message
                  error := some error_message
                  model := modelName } }

/-- src/main.py lines 89-93: the value the dead local variable
`status_code` receives inside the `except` branch of `api_status`.  It is
computed and then never used (the returned dict does not carry it and the
handler returns it to FastAPI as a plain 200 response). -/
def api_status_dead_status_code (error_message : String) : Nat :=
  if strContains (pyLower error_message) "quota"
      || strContains (pyLower error_message) "rate" then
    429
  else
    500

/-- The observable outcome of the chat-forward endpoint: a successful
`ChatResponse`, or an `HTTPException` surfaced by FastAPI as a response
with the given status code and detail text. -/
inductive ChatOutcome where
  | success (response : ChatResponse)
  | httpError (statusCode : Nat) (detail : String)
deriving DecidableEq, Repr

/-- src/main.py line 141: the short-retry detail text. -/
def rate_limit_detail : String :=
  "Rate limit exceeded. Please try again in a few seconds."

/-- src/main.py line 146: the daily-quota detail text. -/
def daily_quota_detail : String :=
  "Google API quota exceeded. Your daily limit may have been reached. Please try again later or consider upgrading your API tier."

/-- src/main.py line 152: the high-load timeout detail text. -/
def timeout_detail : String :=
  "Request to Google API timed out. The service might be experiencing high load."

/-- src/main.py line 120: the request-time configuration-error detail. -/
def config_error_detail : String :=
  "API key configuration error"

/-- src/main.py lines 108-163, `chat_with_ai`.  `apiKey` is the value of
`os.environ.get("GOOGLE_API_KEY")` at request time.  Control flow of the
source: the credential check raises `HTTPException(500)` when the value
is falsy; otherwise `llm.invoke(request.message, timeout=30)` runs; a
`ResourceExhausted` result branches on the substring "rate limit"
(both branches status 429); a `TimeoutError` yields 504; any other
exception reaches the outer `except Exception` and yields 500 with the
message appended to "An error occurred: ".  `HTTPException`s raised
inside are re-raised unchanged (line 154-156). -/
def chat_with_ai (apiKey : Option String) (message : String)
    (invoke : Invoke) : ChatOutcome :=
  if pyFalsy apiKey then
    .httpError 500 config_error_detail
  else
    match invoke message with
    | .ok content => .success { reply := content }
    | .error e =>
        match e.kind with
        | .resourceExhausted =>
            if strContains (pyLower e.msg) "rate limit" then
              .httpError 429 rate_limit_detail
            else
              .httpError 429 daily_quota_detail
        | .timeoutError =>
            .httpError 504 timeout_detail
        | .otherExc =>
            .httpError 500 ("An error occurred: " ++ e.msg)

/-- src/main.py lines 27-36, `global_exception_handler`: any exception
escaping a handler is turned into a 500 response carrying the message. -/
def global_exception_handler (e : Exc) : Nat × String :=
  (500, e.msg)

/-- The process-wide state shared by all request handlers: the
environment (read through `os.environ`) and the model handle constructed
at startup (only its model identifier is ever read). -/
structure ServerState where
  env : String → Option String
  llmModel : String

/-- src/main.py lines 65-68, `read_root`, with explicit state passing:
the handler reads nothing and writes nothing. -/
def read_root_st (s : ServerState) : ServerState × String :=
  (s, "Server is running")

/-- `api_status` with explicit state passing: it reads `llm.model` and
performs no assignment to any process-wide name. -/
def api_status_st (s : ServerState) (invoke : Invoke) :
    ServerState × StatusHttp :=
  (s, api_status s.llmModel invoke)

/-- `chat_with_ai` with explicit state passing: it reads
`os.environ.get("GOOGLE_API_KEY")` and performs no assignment to any
process-wide name. -/
def chat_with_ai_st (s : ServerState) (message : String) (invoke : Invoke) :
    ServerState × ChatOutcome :=
  (s, chat_with_ai (s.env "GOOGLE_API_KEY") message invoke)

/-! ## Helper lemmas -/

theorem isPrefixOf_self (l : List Char) : List.isPrefixOf l l = true := by
  induction l with
  | nil => rfl
  | cons c rest ih => simp [List.isPrefixOf, ih]

theorem listContains_self (l : List Char) : listContains l l = true := by
  cases l with
  | nil => rfl
  | cons c rest => simp [listContains, isPrefixOf_self]

theorem listContains_append_self (pre l : List Char) :
    listContains l (pre ++ l) = true := by
  induction pre with
  | nil => simp [listContains_self l]
  | cons c pre ih =>
      cases l with
      | nil => simp [listContains]
      | cons d ds => simp [listContains, ih]

theorem strContains_append_self (pre s : String) :
    strContains (pre ++ s) s = true := by
  have h : (pre ++ s).toList = pre.toList ++ s.toList := rfl
  simp [strContains, h, listContains_append_self]

/-! ## Claim theorems -/

/-- C1: the status probe classifies any failure whose message contains
"quota" or "rate" (any letter case) as `quota_exceeded`, and the dead
local `status_code` is even set to 429 for it — but the handler returns a
plain dict, so the HTTP layer serves the report with status 200, not a
429-equivalent status.  Evaluation of the probe at a concrete quota
failure: the body carries `quota_exceeded` while the served HTTP status
is 200 (and likewise 200, not 500, for a non-quota failure). -/
theorem api_status_failure_always_served_200 :
    api_status "gemini-1.5-flash"
        (fun _ => .error ⟨.otherExc, "Quota exceeded for requests"⟩)
      = { httpCode := 200
          body := { status := "quota_exceeded"
                    error := some "Quota exceeded for requests"
                    model := "gemini-1.5-flash" } }
    ∧ api_status_dead_status_code "Quota exceeded for requests" = 429
    ∧ api_status "gemini-1.5-flash"
        (fun _ => .error ⟨.otherExc, "connection reset"⟩)
      = { httpCode := 200
          body := { status := "error"
                    error := some "connection reset"
                    model := "gemini-1.5-flash" } } := by
  refine ⟨by decide, by decide, by decide⟩

/-- C2: with the credential present and non-empty, a successful remote
call with text `t` makes the chat-forward endpoint return a success
response whose reply field is exactly `t`. -/
theorem chat_success_reply_unmodified (k message t : String) (invoke : Invoke)
    (hk : k ≠ "") (_hm : message ≠ "") (hinv : invoke message = .ok t) :
    chat_with_ai (some k) message invoke = .success { reply := t } := by
  simp [chat_with_ai, pyFalsy, hk, hinv]

/-- Witness for C2 at a concrete input. -/
theorem chat_success_reply_unmodified_witness :
    chat_with_ai (some "key") "Hello" (fun _ => .ok "Hi there!")
      = .success { reply := "Hi there!" } :=
  chat_success_reply_unmodified "key" "Hello" "Hi there!" _
    (by decide) (by decide) rfl

/-- C3: a `ResourceExhausted` failure from the remote model yields status
429 in both branches: the short-retry detail when the message contains
"rate limit" (case-insensitive), the daily-quota detail otherwise. -/
theorem chat_resource_exhausted_both_branches_429
    (k message msg : String) (invoke : Invoke) (hk : k ≠ "")
    (hinv : invoke message = .error ⟨.resourceExhausted, msg⟩) :
    (strContains (pyLower msg) "rate limit" = true →
      chat_with_ai (some k) message invoke = .httpError 429 rate_limit_detail)
    ∧ (strContains (pyLower msg) "rate limit" = false →
      chat_with_ai (some k) message invoke = .httpError 429 daily_quota_detail) := by
  constructor <;> intro h <;> simp [chat_with_ai, pyFalsy, hk, hinv, h]

/-- Witness for C3 at a concrete input (an upper-case "RATE LIMIT"
message takes the short-retry branch). -/
theorem chat_resource_exhausted_both_branches_429_witness :
    chat_with_ai (some "key") "Hello"
        (fun _ => .error ⟨.resourceExhausted, "RATE LIMIT hit"⟩)
      = .httpError 429 rate_limit_detail :=
  (chat_resource_exhausted_both_branches_429 "key" "Hello" "RATE LIMIT hit" _
    (by decide) rfl).1 (by decide)

/-- C4: when the credential is absent (or empty, which Python's
truthiness test treats the same) at request time, chat forward returns
the 500 configuration error for every remote client — the message is
never forwarded, and the handler still returns a structured response. -/
theorem chat_missing_key_config_error (apiKey : Option String)
    (message : String) (h : apiKey = none ∨ apiKey = some "") :
    ∀ invoke : Invoke,
      chat_with_ai apiKey message invoke = .httpError 500 config_error_detail := by
  intro invoke
  rcases h with h | h <;> subst h <;> rfl

/-- Witness for C4 at a concrete input. -/
theorem chat_missing_key_config_error_witness :
    chat_with_ai none "Hello" (fun _ => .ok "Hi")
      = .httpError 500 config_error_detail :=
  chat_missing_key_config_error none "Hello" (Or.inl rfl) _

/-- C5: a `TimeoutError` from the remote call yields the 504 response
with the high-load detail, and that response differs from the generic
500 failure response for the same message. -/
theorem chat_timeout_yields_504 (k message msg : String) (invoke : Invoke)
    (hk : k ≠ "") (hinv : invoke message = .error ⟨.timeoutError, msg⟩) :
    chat_with_ai (some k) message invoke = .httpError 504 timeout_detail
    ∧ ChatOutcome.httpError 504 timeout_detail
        ≠ ChatOutcome.httpError 500 ("An error occurred: " ++ msg) := by
  constructor
  · simp [chat_with_ai, pyFalsy, hk, hinv]
  · intro h
    exact absurd (ChatOutcome.httpError.injEq .. ▸ congrArg (fun o => o) h)
      (by simp)

/-- Witness for C5 at a concrete input. -/
theorem chat_timeout_yields_504_witness :
    chat_with_ai (some "key") "Hello"
        (fun _ => .error ⟨.timeoutError, "deadline exceeded"⟩)
      = .httpError 504 timeout_detail :=
  (chat_timeout_yields_504 "key" "Hello" "deadline exceeded" _
    (by decide) rfl).1

/-- C6: any failure that is not the configuration check, not
`ResourceExhausted` and not `TimeoutError` is caught by the outer
`except Exception` clause and turned into a 500 response whose detail
contains the failure's textual description as a substring. -/
theorem chat_generic_failure_caught_500 (k message msg : String)
    (invoke : Invoke) (hk : k ≠ "")
    (hinv : invoke message = .error ⟨.otherExc, msg⟩) :
    chat_with_ai (some k) message invoke
      = .httpError 500 ("An error occurred: " ++ msg)
    ∧ strContains ("An error occurred: " ++ msg) msg = true := by
  refine ⟨by simp [chat_with_ai, pyFalsy, hk, hinv], ?_⟩
  exact strContains_append_self "An error occurred: " msg

/-- Witness for C6 at a concrete input. -/
theorem chat_generic_failure_caught_500_witness :
    chat_with_ai (some "key") "Hello"
        (fun _ => .error ⟨.otherExc, "connection reset"⟩)
      = .httpError 500 ("An error occurred: " ++ "connection reset") :=
  (chat_generic_failure_caught_500 "key" "Hello" "connection reset" _
    (by decide) rfl).1

/-- C7 counterexample: an environment in which the credential is present
but bound to the empty string passes the startup check, so the server
starts and serves routes — the claim that an empty credential prevents
startup is false. -/
theorem startup_accepts_empty_credential :
    startup_check (fun k => if k = "GOOGLE_API_KEY" then some "" else none)
      = true := by
  rfl

/-- C7 amended: a credential missing from the environment at startup
makes the startup check refuse to start the process (the check tests key
membership only, so an empty-but-present value passes it). -/
theorem startup_missing_credential_refuses (env : String → Option String)
    (h : env "GOOGLE_API_KEY" = none) :
    startup_check env = false := by
  simp [startup_check, h]

/-- Witness for the amended C7 at a concrete environment. -/
theorem startup_missing_credential_refuses_witness :
    startup_check (fun _ => none) = false :=
  startup_missing_credential_refuses (fun _ => none) rfl

/-- C8 counterexample: the request model validates `message` only as a
string, so a body with an empty message parses as a valid `ChatRequest`,
and chat forward processes it like any other message. -/
theorem empty_message_is_valid_and_processed :
    parseChatRequest (some "") = some { message := "" }
    ∧ chat_with_ai (some "key") "" (fun _ => .ok "Hi!")
        = .success { reply := "Hi!" } := by
  refine ⟨rfl, by decide⟩

/-- C8 amended: `ChatRequest` requires a `message` field of string type —
a body without the field is rejected, and every string value, the empty
string included, is accepted. -/
theorem chat_request_requires_string_message (s : String) :
    parseChatRequest (some s) = some { message := s }
    ∧ parseChatRequest none = none :=
  ⟨rfl, rfl⟩

/-- C9: none of the request handlers mutates the process-wide state: the
state after handling a health-check, status-probe or chat-forward
request equals the state before. -/
theorem handlers_preserve_state (s : ServerState) (message : String)
    (invoke : Invoke) :
    (read_root_st s).1 = s
    ∧ (api_status_st s invoke).1 = s
    ∧ (chat_with_ai_st s message invoke).1 = s :=
  ⟨rfl, rfl, rfl⟩

/-- C10 counterexample: a `TimeoutError` is not of the resource-exhaustion
type and its message "rate limit" contains every quoted substring, yet
chat forward returns the 504 timeout response, not a 500 generic error —
the claim that every non-resource-exhaustion failure with such a message
gets a 500 generic error is false. -/
theorem chat_timeout_with_rate_message_not_500 :
    chat_with_ai (some "key") "Hello"
        (fun _ => .error ⟨.timeoutError, "rate limit"⟩)
      = .httpError 504 timeout_detail
    ∧ chat_with_ai (some "key") "Hello"
        (fun _ => .error ⟨.timeoutError, "rate limit"⟩)
      ≠ .httpError 500 ("An error occurred: rate limit") := by
  refine ⟨by decide, by decide⟩

/-- C10 amended: the chat-forward quota classification is driven by the
failure's type, not its message: a failure that is neither
resource-exhaustion nor timeout whose message contains "quota" or "rate"
(hence also "rate limit") gets the 500 generic error from chat forward,
while the status probe classifies a failure with the same message as
`quota_exceeded` by substring alone. -/
theorem quota_message_classified_differently (k message msg m : String)
    (invoke : Invoke) (hk : k ≠ "")
    (hinv : invoke message = .error ⟨.otherExc, msg⟩)
    (hmsg : (strContains (pyLower msg) "quota"
              || strContains (pyLower msg) "rate") = true) :
    chat_with_ai (some k) message invoke
      = .httpError 500 ("An error occurred: " ++ msg)
    ∧ (api_status m (fun _ => .error ⟨.otherExc, msg⟩)).body.status
        = "quota_exceeded" := by
  constructor
  · simp [chat_with_ai, pyFalsy, hk, hinv]
  · simp [api_status, hmsg]

/-- Witness for the amended C10 at a concrete input. -/
theorem quota_message_classified_differently_witness :
    chat_with_ai (some "key") "Hello"
        (fun _ => .error ⟨.otherExc, "Quota exceeded for requests"⟩)
      = .httpError 500 ("An error occurred: " ++ "Quota exceeded for requests") :=
  (quota_message_classified_differently "key" "Hello"
    "Quota exceeded for requests" "gemini-1.5-flash" _
    (by decide) rfl (by decide)).1

end AIGirlBot
